import Mathlib

/-!
# EagleNetwork: `Result` / `Error` and the resource initializers

A shallow embedding of `include/EagleNetwork/Result.hh` and
`include/EagleNetwork/ResourceInitializer.hh`, of the operation under test in
`test/ResultTests.cc`, and of the socket façade that `include/EagleNetwork/Socket.hh`
declares.

* A C++ member function that may `throw` returns `Except Failure α`; the
  exception classes of the two headers are the constructors of `Failure`.
* Move construction and move assignment are modelled on the destination
  object: the function returns the object the destination is afterwards.
* The user callable held in `std::function` may have side effects (it may
  acquire an OS handle); it is a state-passing function over an explicit
  `World`.
* A default-initialised member holds `Inhabited.default`: the value built by
  the default constructor of a class type, and a stand-in for the
  indeterminate value of a scalar.
-/

namespace Eagle.Core

/-- The exception classes declared in `Result.hh`, `ResourceInitializer.hh`
and `Socket.hh`. -/
inductive Failure where
  | BadResultAccess
  | BadErrorAccess
  | ResourceInitializerInvalidResource
  | ResourceInitializerNoErrorExists
  | BasicSocketInvalidDependencies
  deriving DecidableEq, Repr

namespace Utilities

/-- `struct Error<T>`: a wrapper around one value (`Result.hh:59-86`). -/
structure Error (T : Type) where
  value : T
  deriving DecidableEq, Repr

/-- `Error() = default`: the value member is default-initialised. -/
def Error.default {T : Type} [Inhabited T] : Error T :=
  { value := Inhabited.default }

/-- `Error(Error&&) = default` and `operator=(Error&&) = default`: the
destination of a same-type move holds the source's value. -/
def Error.move {T : Type} (other : Error T) : Error T :=
  { value := other.value }

/-- `MakeError(U&& value)`: `return Error<U>(std::forward<U>(value))`
(`Result.hh:94-98`). -/
def MakeError {U : Type} (value : U) : Error U :=
  { value := value }

/-- `class Result<ResultType, ErrorType>` (`Result.hh:104-184`): the three
data members, `errorInitialized` with its in-class initialiser `false`. -/
structure Result (ResultType ErrorType : Type) where
  errorInitialized : Bool := false
  result : ResultType
  error : Error ErrorType
  deriving DecidableEq, Repr

namespace Result

variable {ResultType ErrorType : Type}

/-- `Result() = default`: `errorInitialized{false}`, both payload members
default-initialised. -/
def default [Inhabited ResultType] [Inhabited ErrorType] : Result ResultType ErrorType :=
  { errorInitialized := false, result := Inhabited.default, error := Error.default }

/-- `Result(U&& value) : result(std::forward<U>(value)) {}` (`Result.hh:147-148`):
`errorInitialized` keeps its in-class initialiser, `error` is
default-initialised. -/
def ofValue [Inhabited ErrorType] (value : ResultType) : Result ResultType ErrorType :=
  { errorInitialized := false, result := value, error := Error.default }

/-- `Result(Error<U>&& value) : errorInitialized{true}, error(std::move(value)) {}`
(`Result.hh:150-151`) at `U = ErrorType`, where `error` is initialised by the
defaulted move constructor of `Error`; `result` is default-initialised. -/
def ofError [Inhabited ResultType] (value : Error ErrorType) : Result ResultType ErrorType :=
  { errorInitialized := true, result := Inhabited.default, error := Error.move value }

/-- `Result(Result&& other) = default` (`Result.hh:117`): member-wise move of
the three data members. -/
def moveConstruct (other : Result ResultType ErrorType) : Result ResultType ErrorType :=
  { errorInitialized := other.errorInitialized
    result := other.result
    error := Error.move other.error }

/-- `Result& operator=(Result&& other) = default` (`Result.hh:118`):
member-wise move assignment; every member of the destination is overwritten. -/
def moveAssign (_self other : Result ResultType ErrorType) : Result ResultType ErrorType :=
  { errorInitialized := other.errorInitialized
    result := other.result
    error := Error.move other.error }

/-- `HasResult()`: `return !errorInitialized;` (`Result.hh:157-159`). -/
def HasResult (self : Result ResultType ErrorType) : Bool :=
  !self.errorInitialized

/-- `GetResult()`: `if(errorInitialized) throw BadResultAccess(); return this->result;`
(`Result.hh:167-171`). -/
def GetResult (self : Result ResultType ErrorType) : Except Failure ResultType :=
  if self.errorInitialized then .error Failure.BadResultAccess
  else .ok self.result

/-- `GetError()`: `if(!errorInitialized) throw BadResultAccess(); return this->error.value;`
(`Result.hh:179-183`). The exception thrown is `BadResultAccess`. -/
def GetError (self : Result ResultType ErrorType) : Except Failure ErrorType :=
  if !self.errorInitialized then .error Failure.BadResultAccess
  else .ok self.error.value

end Result

end Utilities

open Utilities

/-- The operations of the resource type that the return expression
`std::make_unique<TResource>(new TResource(*r))` of `GetUniqueResource()`
applies to the cached payload `r`; they belong to `TResource`, which is
a template parameter, so they are parameters here.

* `deref x` is the value of the expression `*x` for `x : TResource`;
* `construct y` is the value of the object `TResource(y)` built from `y = *x`;
* `fromPointer v` is the value of the object `TResource(p)` built from a
  non-null pointer `p : TResource*` to a fresh heap object holding `v`. -/
structure ResourceOps (TResource Pointee : Type) where
  deref : TResource → Pointee
  construct : Pointee → TResource
  fromPointer : TResource → TResource

/-- `ResourceOps` of `TResource = std::optional<bool>`: `*o` is the contained
`bool` (it has no defined value on a disengaged optional, where the model picks
`false`); `optional<bool>(b)` is engaged and contains `b`; and
`optional<bool>(p)` for a pointer `p` goes through the converting constructor
`optional(U&&)` at `U = optional<bool>*`, which contains `bool(p)`, that is
`true` for the non-null pointer returned by `new`. -/
def optionalBoolOps : ResourceOps (Option Bool) Bool where
  deref := fun o => o.getD false
  construct := fun b => some b
  fromPointer := fun _ => some true

/-- `class ResourceInitializerWithoutDependencies<TResource, TError>`
(`ResourceInitializer.hh:52-175`): the callable of signature
`Result<TResource, TError>()` and the cached `Result`. The callable reads and
updates a `World`. -/
structure ResourceInitializerWithoutDependencies (TResource TError World : Type) where
  initializer : World → Result TResource TError × World
  resourceInitResult : Result TResource TError

namespace ResourceInitializerWithoutDependencies

variable {TResource TError World Pointee : Type}

/-- The constructor (`ResourceInitializer.hh:64-66`): stores the callable;
`resourceInitResult` is default-constructed. -/
def construct [Inhabited TResource] [Inhabited TError]
    (initializer : World → Result TResource TError × World) :
    ResourceInitializerWithoutDependencies TResource TError World :=
  { initializer := initializer, resourceInitResult := Result.default }

/-- `InitializeResource()`: `resourceInitResult = initializer();`
(`ResourceInitializer.hh:77-80`): one call of the callable, whose return value
is move-assigned to the cached `Result`. -/
def InitializeResource (self : ResourceInitializerWithoutDependencies TResource TError World)
    (w : World) : ResourceInitializerWithoutDependencies TResource TError World × World :=
  let out := self.initializer w
  ({ self with resourceInitResult := Result.moveAssign self.resourceInitResult out.1 }, out.2)

/-- `IsValidResource()`: `return this->resourceInitResult.HasResult();`
(`ResourceInitializer.hh:89-92`). -/
def IsValidResource (self : ResourceInitializerWithoutDependencies TResource TError World) : Bool :=
  self.resourceInitResult.HasResult

/-- `GetActualResrouce()` (`ResourceInitializer.hh:99-107`). -/
def GetActualResrouce (self : ResourceInitializerWithoutDependencies TResource TError World) :
    Except Failure TResource :=
  if !self.IsValidResource then .error Failure.ResourceInitializerInvalidResource
  else self.resourceInitResult.GetResult

/-- `GetActualError()` (`ResourceInitializer.hh:109-117`). -/
def GetActualError (self : ResourceInitializerWithoutDependencies TResource TError World) :
    Except Failure TError :=
  if self.IsValidResource then .error Failure.ResourceInitializerNoErrorExists
  else self.resourceInitResult.GetError

/-- `GetUniqueResource()` (`ResourceInitializer.hh:124-143`; the overload
constrained by `std::is_pointer_v<TResource>` and the unconstrained one have
the same body): in the valid state
`return std::make_unique<TResource>(new TResource(*this->resourceInitResult.GetResult()));`,
otherwise `throw ResourceInitializerInvalidResource();`. The value is the one
held by the returned `unique_ptr`. -/
def GetUniqueResource (ops : ResourceOps TResource Pointee)
    (self : ResourceInitializerWithoutDependencies TResource TError World) :
    Except Failure TResource :=
  if self.IsValidResource then
    match self.resourceInitResult.GetResult with
    | .ok r => .ok (ops.fromPointer (ops.construct (ops.deref r)))
    | .error f => .error f
  else .error Failure.ResourceInitializerInvalidResource

end ResourceInitializerWithoutDependencies

/-- `class ResourceInitializer<TResource, TError, TDependencies>`
(`ResourceInitializer.hh:183-325`): the callable of signature
`Result<TResource, TError>(const TDependencies&)`, the cached `Result`, and the
member `TDependencies& dependencies`. The reference member is bound to a bundle
owned by the caller; the field `dependencies` is the current content of that
bundle. The callable reads and updates a `World`. -/
structure ResourceInitializer (TResource TError TDependencies World : Type) where
  initializer : World → TDependencies → Result TResource TError × World
  resourceInitResult : Result TResource TError
  dependencies : TDependencies

namespace ResourceInitializer

variable {TResource TError TDependencies World Pointee : Type}

/-- The two-argument constructor (`ResourceInitializer.hh:198-200`): stores the
callable and binds the reference member to the caller's bundle;
`resourceInitResult` is default-constructed. -/
def construct [Inhabited TResource] [Inhabited TError]
    (initializer : World → TDependencies → Result TResource TError × World)
    (dependencies : TDependencies) :
    ResourceInitializer TResource TError TDependencies World :=
  { initializer := initializer, resourceInitResult := Result.default,
    dependencies := dependencies }

/-- `SetResourceDependencies(deps)`: `dependencies = deps;`
(`ResourceInitializer.hh:212-215`), an assignment through the reference member. -/
def SetResourceDependencies (self : ResourceInitializer TResource TError TDependencies World)
    (deps : TDependencies) : ResourceInitializer TResource TError TDependencies World :=
  { self with dependencies := deps }

/-- `InitializeResource()`: `resourceInitResult = initializer(dependencies);`
(`ResourceInitializer.hh:221-224`). -/
def InitializeResource (self : ResourceInitializer TResource TError TDependencies World)
    (w : World) : ResourceInitializer TResource TError TDependencies World × World :=
  let out := self.initializer w self.dependencies
  ({ self with resourceInitResult := Result.moveAssign self.resourceInitResult out.1 }, out.2)

/-- `GetResourceDependencies()`: `return dependencies;`
(`ResourceInitializer.hh:229-232`). -/
def GetResourceDependencies (self : ResourceInitializer TResource TError TDependencies World) :
    TDependencies :=
  self.dependencies

/-- `IsValidResource()`: `return this->resourceInitResult.HasResult();`
(`ResourceInitializer.hh:241-244`). -/
def IsValidResource (self : ResourceInitializer TResource TError TDependencies World) : Bool :=
  self.resourceInitResult.HasResult

/-- `GetActualError()` (`ResourceInitializer.hh:246-248`): the body is empty,
`{ }`. Control reaches the closing brace of a function returning `TError`
with no `return` and no `throw`: the call yields neither a value nor an
exception, which is `none`. -/
def GetActualError (_self : ResourceInitializer TResource TError TDependencies World) :
    Option (Except Failure TError) :=
  none

/-- `GetActualResrouce()` (`ResourceInitializer.hh:255-263`). -/
def GetActualResrouce (self : ResourceInitializer TResource TError TDependencies World) :
    Except Failure TResource :=
  if !self.IsValidResource then .error Failure.ResourceInitializerInvalidResource
  else self.resourceInitResult.GetResult

/-- `GetUniqueResource()` (`ResourceInitializer.hh:270-289`; both overloads
have the same body): `if(!this->IsValidResource()) throw
ResourceInitializerInvalidResource();` then
`return std::make_unique<TResource>(new TResource(*this->resourceInitResult.GetResult()));`.
The value is the one held by the returned `unique_ptr`. -/
def GetUniqueResource (ops : ResourceOps TResource Pointee)
    (self : ResourceInitializer TResource TError TDependencies World) :
    Except Failure TResource :=
  if !self.IsValidResource then .error Failure.ResourceInitializerInvalidResource
  else
    match self.resourceInitResult.GetResult with
    | .ok r => .ok (ops.fromPointer (ops.construct (ops.deref r)))
    | .error f => .error f

/-- The statement that opens the body of `GetSharedResource()` in the overload
constrained by `std::is_pointer_v<TResource>` (`ResourceInitializer.hh:294-297`):
`if(!this->IsValidResource()) { throw ResourceInitializerInvalidResource(); }`.
The value is the exception the statement raises, if it raises one. -/
def GetSharedResourcePointerGuard
    (self : ResourceInitializer TResource TError TDependencies World) : Option Failure :=
  if !self.IsValidResource then some Failure.ResourceInitializerInvalidResource else none

/-- The statement that opens the body of `GetSharedResource()` in the overload
without the constraint (`ResourceInitializer.hh:304-308`):
`if(this->IsValidResource()) { throw ResourceInitializerInvalidResource(); }`.
The value is the exception the statement raises, if it raises one. -/
def GetSharedResourceGuard
    (self : ResourceInitializer TResource TError TDependencies World) : Option Failure :=
  if self.IsValidResource then some Failure.ResourceInitializerInvalidResource else none

/-- A call of `GetSharedResource()` (`ResourceInitializer.hh:291-310`, either
overload). The function is declared `std::unique_ptr<TResource>` and its
`return` statement returns `std::make_shared<TResource>(...)`, a
`std::shared_ptr<TResource>`, which converts to no `std::unique_ptr`: the member
is ill-formed for every `TResource`, no call of it compiles, and a call has no
outcome, neither a value nor an exception, which is `none`. -/
def GetSharedResource
    (_self : ResourceInitializer TResource TError TDependencies World) :
    Option (Except Failure TResource) :=
  none

end ResourceInitializer

/-- `Detail::SocketResourceDependencies` (`PlatofrmDefs.hh:61-66`). -/
structure SocketResourceDependencies where
  domain : Int
  type : Int
  protocol : Int
  deriving DecidableEq, Repr

/-! ## Example objects -/

/-- A callable for the dependency-less variant whose world counts its
invocations: the first run fails with `MakeError(-1)`, every later run
succeeds with the handle `7`. -/
def countingInitializer (calls : Nat) : Result Int Int × Nat :=
  (if calls = 0 then Result.ofError (MakeError (-1)) else Result.ofValue 7, calls + 1)

/-- A callable for the dependency variant in the shape of a socket request: it
fails with `MakeError(-1)` on a negative domain and otherwise succeeds with a
handle numbered after the invocations made so far. -/
def socketInitializer (calls : Nat) (deps : SocketResourceDependencies) :
    Result Int Int × Nat :=
  (if deps.domain < 0 then Result.ofError (MakeError (-1)) else Result.ofValue (3 + calls),
   calls + 1)

/-- A dependency-less initializer over `countingInitializer`, not yet run. -/
def exampleWithoutDependencies : ResourceInitializerWithoutDependencies Int Int Nat :=
  ResourceInitializerWithoutDependencies.construct countingInitializer

/-- A dependency-variant initializer over `socketInitializer`, bound to the
bundle `{domain = 2, type = 1, protocol = 0}`, not yet run. -/
def exampleWithDependencies : ResourceInitializer Int Int SocketResourceDependencies Nat :=
  ResourceInitializer.construct socketInitializer { domain := 2, type := 1, protocol := 0 }

/-- A dependency-variant initializer whose cached `Result` is the success
`Result` built from the handle `3`. -/
def validInitializer : ResourceInitializer Int Int SocketResourceDependencies Nat :=
  { initializer := socketInitializer
    resourceInitResult := Result.ofValue 3
    dependencies := { domain := 2, type := 1, protocol := 0 } }

/-- A dependency-variant initializer whose cached `Result` is the error
`Result` built from `MakeError(-1)`. -/
def invalidInitializer : ResourceInitializer Int Int SocketResourceDependencies Nat :=
  { initializer := socketInitializer
    resourceInitResult := Result.ofError (MakeError (-1))
    dependencies := { domain := -1, type := 1, protocol := 0 } }

/-- A dependency-less initializer whose cached `Result` is the error `Result`
built from `MakeError(-1)`. -/
def invalidWithoutDependencies : ResourceInitializerWithoutDependencies Int Int Nat :=
  { initializer := countingInitializer
    resourceInitResult := Result.ofError (MakeError (-1)) }

/-- A dependency-less initializer over `TResource = std::optional<bool>` whose
cached `Result` is the success `Result` built from an optional containing
`false`. -/
def optionalWithoutDependencies :
    ResourceInitializerWithoutDependencies (Option Bool) Int Unit :=
  { initializer := fun u => (Result.ofValue (some false), u)
    resourceInitResult := Result.ofValue (some false) }

/-- A dependency-variant initializer over `TResource = std::optional<bool>`
whose cached `Result` is the success `Result` built from an optional containing
`false`. -/
def optionalWithDependencies :
    ResourceInitializer (Option Bool) Int SocketResourceDependencies Unit :=
  { initializer := fun u _ => (Result.ofValue (some false), u)
    resourceInitResult := Result.ofValue (some false)
    dependencies := { domain := 2, type := 1, protocol := 0 } }

/-! ## The templated numeric move of `Result`, the remaining accessors, the test operation -/

namespace Utilities

namespace Result

variable {ResultType ErrorType : Type}

/-- The templated move assignment `operator=(Result<T, ErrorType>&& other)`
(`Result.hh:133-145`), returning the destination and the source as they are
afterwards. Its body applies `std::swap` to `this->result` and `other.result`,
two references that `std::swap` takes at one type, so the source payload type
`T` is the `ResultType` of the destination here.

* `other.HasResult()`: `std::swap(this->result, other.result); other.result = 0;`
* otherwise: `this->error = std::move(other.error);` (the moved-from
  `other.error` is kept as it is, which is what a scalar `ErrorType` leaves).

No statement of the body assigns `errorInitialized`. -/
def templatedMoveAssign [Zero ResultType] (self other : Result ResultType ErrorType) :
    Result ResultType ErrorType × Result ResultType ErrorType :=
  if other.HasResult then
    let self1 := { self with result := other.result }
    let other1 := { other with result := self.result }
    (self1, { other1 with result := 0 })
  else
    ({ self with error := Error.move other.error }, other)

/-- The body of the templated move constructor
`Result(Result<T, ErrorType>&& other)` (`Result.hh:120-131`): it has no member
initialiser list, so the members start as in `Result() = default`, and its body
is the body of the templated move assignment. At `T = ResultType` overload
resolution selects the defaulted move constructor instead, so no construction
runs this body. -/
def templatedMoveConstruct [Zero ResultType] [Inhabited ResultType] [Inhabited ErrorType]
    (other : Result ResultType ErrorType) :
    Result ResultType ErrorType × Result ResultType ErrorType :=
  templatedMoveAssign Result.default other

end Result

/-- Names of arithmetic types, for the payload type `ResultType` of the
destination and the payload type `T` of the source of the templated move, which
is constrained by `std::is_integral_v<T> || std::is_floating_point_v<T>`. The
payload values of these integral types are carried as `Int`. -/
inductive ArithmeticType where
  | short
  | int
  | long
  deriving DecidableEq, Repr

/-- The templated move assignment `operator=(Result<T, ErrorType>&& other)` of
`Result<ResultType, ErrorType>` (`Result.hh:133-145`) instantiated at the source
payload type `T`.

* `T` other than `ResultType`: the body is ill-formed.
  `std::swap(this->result, other.result)` is given references to two different
  types, for which `std::swap` has no overload, and `other.result` is a private
  member of the other class `Result<T, ErrorType>`. No such move compiles and it
  has no outcome: `none`.
* `T = ResultType` (reached by naming the template argument,
  `dst.operator=<T>(std::move(src))`): the body runs, `templatedMoveAssign`. -/
def Result.templatedMoveAssignAt {ErrorType : Type} (ResultType T : ArithmeticType)
    (self other : Result Int ErrorType) : Option (Result Int ErrorType × Result Int ErrorType) :=
  if T = ResultType then some (Result.templatedMoveAssign self other) else none

end Utilities

namespace ResourceInitializerWithoutDependencies

variable {TResource TError World Pointee : Type}

/-- The `if`/`else` that makes the body of `GetSharedResource()` in both
overloads (`ResourceInitializer.hh:148-153` and `158-164`):
`if(this->IsValidResource()) { return ...; } else { throw ResourceInitializerInvalidResource(); }`.
The value is the exception the `else` branch raises, if that branch is taken. -/
def GetSharedResourceGuard
    (self : ResourceInitializerWithoutDependencies TResource TError World) : Option Failure :=
  if self.IsValidResource then none else some Failure.ResourceInitializerInvalidResource

/-- A call of `GetSharedResource()` (`ResourceInitializer.hh:145-165`, either
overload). The function is declared `std::unique_ptr<TResource>` and its
`return` statement returns `std::make_shared<TResource>(...)`, a
`std::shared_ptr<TResource>`, which converts to no `std::unique_ptr`: the member
is ill-formed for every `TResource`, no call of it compiles, and a call has no
outcome, neither a value nor an exception, which is `none`. -/
def GetSharedResource
    (_self : ResourceInitializerWithoutDependencies TResource TError World) :
    Option (Except Failure TResource) :=
  none

end ResourceInitializerWithoutDependencies

namespace Testing

/-- `Testing::DoOperation(std::string data)` (`test/ResultTests.cc:31-37`):
`if(data == "valid") return std::string("success"); return Utilities::MakeError(-1);`,
each `return` converting to `Result<std::string, int>` through the matching
constructor. -/
def DoOperation (data : String) : Result String Int :=
  if data = "valid" then Result.ofValue "success"
  else Result.ofError (MakeError (-1))

/-- The fixture field after `ResultTest::SetUp` (`test/ResultTests.cc:44-55`) for
the input `data`: the field is default-constructed, `auto r = DoOperation(data)`
names the returned object, and `field = std::move(r)` move-assigns it. -/
def SetUpField (data : String) : Result String Int :=
  Result.moveAssign Result.default (DoOperation data)

end Testing

/-! ## The socket façade -/

/-- Modelled from the spec: the states of the socket façade, "State machine
with states {Unopened, Open, Closed}" (section 4.4). `Socket.hh` declares
`BasicSocket` with the member `std::unique_ptr<BasicSocketImpl> impl` and the
sources define neither `BasicSocketImpl` nor any member function. -/
inductive SocketState where
  | Unopened
  | Open
  | Closed
  deriving DecidableEq, Repr

/-- Modelled from the spec: the content of `BasicSocket` that the absent
`BasicSocketImpl` holds: the platform-bound initializer
(`ResourceInitializerType`, `Socket.hh:47-49`, with `int` as handle and error
type) that the façade "exclusively owns", and the state of the state machine. -/
structure BasicSocket (World : Type) where
  initializer : ResourceInitializer Int Int SocketResourceDependencies World
  state : SocketState

namespace BasicSocket

variable {World : Type}

/-- Modelled from the spec: the absent constructor
`BasicSocket(ResourceInitializerType initializer)`: the façade takes the
initializer and starts in state Unopened. -/
def construct (initializer : ResourceInitializer Int Int SocketResourceDependencies World) :
    BasicSocket World :=
  { initializer := initializer, state := SocketState.Unopened }

/-- Modelled from the spec: the absent body of `OpenSocket(dependencies)`:
"Unopened → Open: `OpenSocket(dependencies)` succeeds (underlying
ResourceInitializer invocation yields a successful Result); returns true. On
failure, remains Unopened (or Closed if previously closed) and returns false."
The bundle is handed to the initializer with `SetResourceDependencies` and the
invocation is `InitializeResource()`. The spec gives no transition for a call
in state Open, which is `none`. -/
def OpenSocket (self : BasicSocket World) (dependencies : SocketResourceDependencies)
    (w : World) : Option (Bool × BasicSocket World × World) :=
  match self.state with
  | SocketState.Open => none
  | _ =>
    let run := (self.initializer.SetResourceDependencies dependencies).InitializeResource w
    if run.1.IsValidResource then
      some (true, { initializer := run.1, state := SocketState.Open }, run.2)
    else
      some (false, { initializer := run.1, state := self.state }, run.2)

/-- Modelled from the spec: the absent body of `GetSocket()`. By section 4.4 it
is "valid only in state Open; undefined/failing otherwise", and the failure
must surface as the invalid-access signal of section 4.2, the accessor being a
delegation to the accessors of the underlying initializer. In state Open it
delegates to the resource accessor `GetActualResrouce()`; in the states
Unopened and Closed it fails with the invalid-access signal of that accessor,
`ResourceInitializerInvalidResource`. -/
def GetSocket (self : BasicSocket World) : Except Failure Int :=
  match self.state with
  | SocketState.Open => self.initializer.GetActualResrouce
  | _ => .error Failure.ResourceInitializerInvalidResource

/-- Modelled from the spec: the absent body of `CloseSocket()`: "Open → Closed:
`CloseSocket()` releases the native handle exactly once and returns true;
idempotent on a handle that is already Closed/Unopened (returns true/no-op —
releasing nothing)." `released` is the log of the native handles released so
far; the handle released is the one `GetSocket()` returns. -/
def CloseSocket (self : BasicSocket World) (released : List Int) :
    Bool × BasicSocket World × List Int :=
  match self.state with
  | SocketState.Open =>
    match self.GetSocket with
    | .ok handle => (true, { self with state := SocketState.Closed }, released ++ [handle])
    | .error _ => (true, { self with state := SocketState.Closed }, released)
  | _ => (true, self, released)

end BasicSocket

/-- Modelled from the spec: the outcome of the socket-creation call of the
platform, which section 6 describes as a pair of handle and platform error
code: the integer the call returns and the error code it leaves. `Socket.hh`
includes `<sys/socket.h>` and the sources contain no call of it. -/
structure NativeOutcome where
  returned : Int
  errorCode : Int
  deriving DecidableEq, Repr

/-- Modelled from the spec: the callable of the platform-bound initializer that
the absent `BasicSocketImpl` owns. By section 6 the dependency triple maps
one-to-one onto the arguments of the socket-creation call of the platform and
the Result/Error pair maps onto the handle and platform error code of its
outcome, and the handle of the POSIX-family target is the "OS socket
descriptor (signed integer)" (section 4.3), for which a negative return value
is the failure: the callable
runs the native call once on the triple and returns `MakeError(error code)` on a
negative return value and the returned descriptor otherwise. -/
def platformInitializer {World : Type}
    (nativeCall : World → SocketResourceDependencies → NativeOutcome × World)
    (w : World) (dependencies : SocketResourceDependencies) : Result Int Int × World :=
  let out := nativeCall w dependencies
  (if out.1.returned < 0 then Result.ofError (MakeError out.1.errorCode)
   else Result.ofValue out.1.returned, out.2)

/-- A native call whose world counts the calls made: on a negative domain it
returns `-1` with the error code `97`, otherwise the descriptor `3 + calls`. -/
def exampleNativeCall (calls : Nat) (deps : SocketResourceDependencies) : NativeOutcome × Nat :=
  (if deps.domain < 0 then { returned := -1, errorCode := 97 }
   else { returned := 3 + calls, errorCode := 0 }, calls + 1)

/-- A never-opened façade over the platform-bound initializer of
`exampleNativeCall`. -/
def examplePlatformSocket : BasicSocket Nat :=
  BasicSocket.construct
    (ResourceInitializer.construct (platformInitializer exampleNativeCall)
      { domain := 2, type := 1, protocol := 0 })

/-! ## The converting move of `Error`, the reference member as a cell -/

namespace Utilities

/-- The converting move constructor `Error(Error<U>&&)` of `Error<T>`
(`Result.hh:75-79`): it has no member initialiser list and its body is empty,
`{ }`, so the member `value` is default-initialised and the argument is not
read. -/
def Error.convertingMove {T U : Type} [Inhabited T] (_other : Error U) : Error T :=
  Error.default

/-- `Result(Error<U>&& value) : errorInitialized{true}, error(std::move(value)) {}`
(`Result.hh:150-151`) at an `U` other than `ErrorType`: `error` is initialised
from an `Error<U>&&`, which selects the converting move constructor of
`Error<ErrorType>`; `result` is default-initialised. -/
def Result.ofConvertedError {ResultType ErrorType U : Type} [Inhabited ResultType]
    [Inhabited ErrorType] (value : Error U) : Result ResultType ErrorType :=
  { errorInitialized := true, result := Inhabited.default, error := Error.convertingMove value }

end Utilities

/-- The dependency-variant initializer with its reference member spelled out:
`TDependencies& dependencies` (`ResourceInitializer.hh:323`) is the address of
the bundle it is bound to, and the bundles live in a store owned by the
callers, a function from addresses to bundles. -/
structure ResourceInitializerRef (TResource TError TDependencies World : Type) where
  initializer : World → TDependencies → Result TResource TError × World
  resourceInitResult : Result TResource TError
  dependencies : Nat

namespace ResourceInitializerRef

variable {TResource TError TDependencies World : Type}

/-- The two-argument constructor (`ResourceInitializer.hh:198-200`),
`initializer(initializer), dependencies(dependencies)`: the reference member is
bound to the bundle of the caller at `address`; the store is not written. -/
def construct [Inhabited TResource] [Inhabited TError]
    (initializer : World → TDependencies → Result TResource TError × World)
    (address : Nat) : ResourceInitializerRef TResource TError TDependencies World :=
  { initializer := initializer, resourceInitResult := Result.default, dependencies := address }

/-- `SetResourceDependencies(deps)`: `dependencies = deps;`
(`ResourceInitializer.hh:212-215`). Assignment to a reference assigns to the
object referred to: the store is updated at the address the member holds, and
the member itself cannot be rebound. -/
def SetResourceDependencies
    (self : ResourceInitializerRef TResource TError TDependencies World)
    (store : Nat → TDependencies) (deps : TDependencies) :
    ResourceInitializerRef TResource TError TDependencies World × (Nat → TDependencies) :=
  (self, Function.update store self.dependencies deps)

/-- `GetResourceDependencies()`: `return dependencies;`
(`ResourceInitializer.hh:229-232`), a copy of the bundle referred to. -/
def GetResourceDependencies
    (self : ResourceInitializerRef TResource TError TDependencies World)
    (store : Nat → TDependencies) : TDependencies :=
  store self.dependencies

/-- The initializer as `ResourceInitializer` sees it: the reference member
replaced by the current content of the bundle it refers to. -/
def view (self : ResourceInitializerRef TResource TError TDependencies World)
    (store : Nat → TDependencies) :
    ResourceInitializer TResource TError TDependencies World :=
  { initializer := self.initializer
    resourceInitResult := self.resourceInitResult
    dependencies := store self.dependencies }

end ResourceInitializerRef

/-! ## Properties of `Result` -/

namespace Utilities

variable {ResultType ErrorType : Type}

/-- C1: for every value `v`, the `Result` built by the success constructor from
`v` has `HasResult() == true` and `GetResult()` returns `v` (it does not
throw). -/
theorem Result.ofValue_HasResult_GetResult [Inhabited ErrorType] (v : ResultType) :
    (Result.ofValue v : Result ResultType ErrorType).HasResult = true ∧
    (Result.ofValue v : Result ResultType ErrorType).GetResult = .ok v := by
  constructor <;> rfl

/-- C2: for every error value `e`, the `Result` built from an `Error` holding
`e` (written `Error.mk e`, or obtained from `MakeError e`) has
`HasResult() == false`, `GetError()` returns `e`, and `GetResult()` throws
`BadResultAccess`. -/
theorem Result.ofError_HasResult_GetError_GetResult [Inhabited ResultType] (e : ErrorType) :
    ((Result.ofError (Error.mk e) : Result ResultType ErrorType).HasResult = false ∧
     (Result.ofError (Error.mk e) : Result ResultType ErrorType).GetError = .ok e ∧
     (Result.ofError (Error.mk e) : Result ResultType ErrorType).GetResult
        = .error Failure.BadResultAccess) ∧
    ((Result.ofError (MakeError e) : Result ResultType ErrorType).HasResult = false ∧
     (Result.ofError (MakeError e) : Result ResultType ErrorType).GetError = .ok e ∧
     (Result.ofError (MakeError e) : Result ResultType ErrorType).GetResult
        = .error Failure.BadResultAccess) := by
  refine ⟨⟨?_, ?_, ?_⟩, ⟨?_, ?_, ?_⟩⟩ <;> rfl

/-- `GetError()` throws exactly in the success state, and what it throws there
is `BadResultAccess`; in the error state it returns the error payload. -/
theorem Result.GetError_cases (r : Result ResultType ErrorType) :
    (r.HasResult = true → r.GetError = .error Failure.BadResultAccess) ∧
    (r.HasResult = false → r.GetError = .ok r.error.value) := by
  cases h : r.errorInitialized <;> simp [Result.HasResult, Result.GetError, h]

/-- C3 (evaluation of the code): on the success-state
`Result<std::string, int>` built from `"success"`, `GetError()` throws
`BadResultAccess`; it does not throw `BadErrorAccess`. -/
theorem Result.GetError_success_throws_BadResultAccess :
    (Result.ofValue "success" : Result String Int).HasResult = true ∧
    (Result.ofValue "success" : Result String Int).GetError
      = .error Failure.BadResultAccess ∧
    (Result.ofValue "success" : Result String Int).GetError
      ≠ .error Failure.BadErrorAccess := by
  refine ⟨rfl, rfl, ?_⟩
  intro h
  have h2 : (Result.ofValue "success" : Result String Int).GetError
      = .error Failure.BadResultAccess := rfl
  rw [h2] at h
  injection h with h3
  cases h3

/-- C4: for every source `r` and every prior destination `dst`, the
destination of a same-type move construction, and of a same-type move
assignment, has `r`s `HasResult()`, `r`s `GetResult()` outcome and `r`s
`GetError()` outcome; it is member for member the pre-move `r`. -/
theorem Result.move_reproduces_source (r dst : Result ResultType ErrorType) :
    ((Result.moveConstruct r).HasResult = r.HasResult ∧
     (Result.moveConstruct r).GetResult = r.GetResult ∧
     (Result.moveConstruct r).GetError = r.GetError ∧
     Result.moveConstruct r = r) ∧
    ((Result.moveAssign dst r).HasResult = r.HasResult ∧
     (Result.moveAssign dst r).GetResult = r.GetResult ∧
     (Result.moveAssign dst r).GetError = r.GetError ∧
     Result.moveAssign dst r = r) := by
  refine ⟨⟨?_, ?_, ?_, ?_⟩, ⟨?_, ?_, ?_, ?_⟩⟩ <;> rfl

end Utilities

/-! ## Properties of the resource initializers -/

section Initializers

variable {TResource TError TDependencies World Pointee : Type}

/-- C5: in both variants, for every prior state (cached `Result` included) and
every callable, one `InitializeResource()` runs the callable once, from the
current world and, in the dependency variant, on the current bundle: the world
afterwards is the one the callable left, the cached `Result` is its return
value, `IsValidResource()` is that value under `HasResult()`, and
`GetActualResrouce()` returns its payload when it is a success. After two
successive calls the cached `Result` is the value returned by the second run. -/
theorem InitializeResource_replaces_cached_result :
    (∀ (s : ResourceInitializerWithoutDependencies TResource TError World) (w : World),
      (s.InitializeResource w).2 = (s.initializer w).2 ∧
      (s.InitializeResource w).1.resourceInitResult = (s.initializer w).1 ∧
      (s.InitializeResource w).1.initializer = s.initializer ∧
      (s.InitializeResource w).1.IsValidResource = (s.initializer w).1.HasResult ∧
      ((s.initializer w).1.HasResult = true →
        (s.InitializeResource w).1.GetActualResrouce = .ok (s.initializer w).1.result) ∧
      ((s.InitializeResource w).1.InitializeResource (s.InitializeResource w).2).1.resourceInitResult
        = (s.initializer (s.initializer w).2).1 ∧
      ((s.InitializeResource w).1.InitializeResource (s.InitializeResource w).2).2
        = (s.initializer (s.initializer w).2).2) ∧
    (∀ (s : ResourceInitializer TResource TError TDependencies World) (w : World),
      (s.InitializeResource w).2 = (s.initializer w s.dependencies).2 ∧
      (s.InitializeResource w).1.resourceInitResult = (s.initializer w s.dependencies).1 ∧
      (s.InitializeResource w).1.initializer = s.initializer ∧
      (s.InitializeResource w).1.dependencies = s.dependencies ∧
      (s.InitializeResource w).1.IsValidResource = (s.initializer w s.dependencies).1.HasResult ∧
      ((s.initializer w s.dependencies).1.HasResult = true →
        (s.InitializeResource w).1.GetActualResrouce
          = .ok (s.initializer w s.dependencies).1.result) ∧
      ((s.InitializeResource w).1.InitializeResource (s.InitializeResource w).2).1.resourceInitResult
        = (s.initializer (s.initializer w s.dependencies).2 s.dependencies).1 ∧
      ((s.InitializeResource w).1.InitializeResource (s.InitializeResource w).2).2
        = (s.initializer (s.initializer w s.dependencies).2 s.dependencies).2) := by
  constructor
  · intro s w
    refine ⟨rfl, rfl, rfl, rfl, ?_, rfl, rfl⟩
    intro h
    have hc : (s.InitializeResource w).1.resourceInitResult = (s.initializer w).1 := rfl
    cases he : (s.initializer w).1.errorInitialized <;>
      simp_all [ResourceInitializerWithoutDependencies.GetActualResrouce,
        ResourceInitializerWithoutDependencies.IsValidResource, Result.HasResult,
        Result.GetResult]
  · intro s w
    refine ⟨rfl, rfl, rfl, rfl, rfl, ?_, rfl, rfl⟩
    intro h
    have hc : (s.InitializeResource w).1.resourceInitResult
        = (s.initializer w s.dependencies).1 := rfl
    cases he : (s.initializer w s.dependencies).1.errorInitialized <;>
      simp_all [ResourceInitializer.GetActualResrouce, ResourceInitializer.IsValidResource,
        Result.HasResult, Result.GetResult]

/-- Witness for C5: the second run of `countingInitializer` (world `1`) and the
first run of `socketInitializer` on the bound bundle both succeed, and
`GetActualResrouce()` then returns the payloads `7` and `3`. -/
theorem InitializeResource_replaces_cached_result_witness :
    ((countingInitializer 1).1.HasResult = true ∧
      (exampleWithoutDependencies.InitializeResource 1).1.GetActualResrouce = .ok 7) ∧
    ((socketInitializer 0 exampleWithDependencies.dependencies).1.HasResult = true ∧
      (exampleWithDependencies.InitializeResource 0).1.GetActualResrouce = .ok 3) :=
  ⟨⟨rfl, ((@InitializeResource_replaces_cached_result Int Int SocketResourceDependencies Nat).1
      exampleWithoutDependencies 1).2.2.2.2.1 rfl⟩,
   ⟨rfl, ((@InitializeResource_replaces_cached_result Int Int SocketResourceDependencies Nat).2
      exampleWithDependencies 0).2.2.2.2.2.1 rfl⟩⟩

/-- C6: in both variants `GetActualResrouce()` throws
`ResourceInitializerInvalidResource` if and only if `IsValidResource()` is
false, and when `IsValidResource()` is true it returns the success payload of
the cached `Result`. -/
theorem GetActualResrouce_throws_iff_invalid :
    (∀ (s : ResourceInitializerWithoutDependencies TResource TError World),
      (s.GetActualResrouce = .error Failure.ResourceInitializerInvalidResource
        ↔ s.IsValidResource = false) ∧
      (s.IsValidResource = true → s.GetActualResrouce = .ok s.resourceInitResult.result)) ∧
    (∀ (s : ResourceInitializer TResource TError TDependencies World),
      (s.GetActualResrouce = .error Failure.ResourceInitializerInvalidResource
        ↔ s.IsValidResource = false) ∧
      (s.IsValidResource = true → s.GetActualResrouce = .ok s.resourceInitResult.result)) := by
  constructor
  · intro s
    cases h : s.resourceInitResult.errorInitialized <;>
      simp [ResourceInitializerWithoutDependencies.GetActualResrouce,
        ResourceInitializerWithoutDependencies.IsValidResource, Result.HasResult,
        Result.GetResult, h]
  · intro s
    cases h : s.resourceInitResult.errorInitialized <;>
      simp [ResourceInitializer.GetActualResrouce, ResourceInitializer.IsValidResource,
        Result.HasResult, Result.GetResult, h]

/-- Witness for C6: after the second run of `countingInitializer` and after
the first run of `socketInitializer` the resource is valid and
`GetActualResrouce()` returns the cached payloads `7` and `3`. -/
theorem GetActualResrouce_throws_iff_invalid_witness :
    ((exampleWithoutDependencies.InitializeResource 1).1.IsValidResource = true ∧
      (exampleWithoutDependencies.InitializeResource 1).1.GetActualResrouce = .ok 7) ∧
    (validInitializer.IsValidResource = true ∧ validInitializer.GetActualResrouce = .ok 3) :=
  ⟨⟨rfl, ((@GetActualResrouce_throws_iff_invalid Int Int SocketResourceDependencies Nat).1
      (exampleWithoutDependencies.InitializeResource 1).1).2 rfl⟩,
   ⟨rfl, ((@GetActualResrouce_throws_iff_invalid Int Int SocketResourceDependencies Nat).2
      validInitializer).2 rfl⟩⟩

/-- C7 (evaluation of the code): in the dependency variant `GetActualError()`
has an empty body. On the initializer caching the error `-1` it does not return
`-1`, and on the initializer caching the success `3` it does not throw
`ResourceInitializerNoErrorExists`; the dependency-less sibling does both. -/
theorem ResourceInitializer.GetActualError_empty_body :
    (invalidInitializer.IsValidResource = false ∧
      invalidInitializer.GetActualError = none ∧
      invalidInitializer.GetActualError ≠ some (.ok (-1))) ∧
    (validInitializer.IsValidResource = true ∧
      validInitializer.GetActualError = none ∧
      validInitializer.GetActualError
        ≠ some (.error Failure.ResourceInitializerNoErrorExists)) ∧
    (invalidWithoutDependencies.IsValidResource = false ∧
      invalidWithoutDependencies.GetActualError = .ok (-1)) := by
  refine ⟨⟨rfl, rfl, ?_⟩, ⟨rfl, rfl, ?_⟩, ⟨rfl, rfl⟩⟩ <;>
    simp [ResourceInitializer.GetActualError]

/-- C8: in the dependency-less variant `GetActualError()` throws
`ResourceInitializerNoErrorExists` if and only if `IsValidResource()` is true,
and when `IsValidResource()` is false it returns the error payload of the
cached `Result`. -/
theorem ResourceInitializerWithoutDependencies.GetActualError_throws_iff_valid
    (s : ResourceInitializerWithoutDependencies TResource TError World) :
    (s.GetActualError = .error Failure.ResourceInitializerNoErrorExists
      ↔ s.IsValidResource = true) ∧
    (s.IsValidResource = false → s.GetActualError = .ok s.resourceInitResult.error.value) := by
  cases h : s.resourceInitResult.errorInitialized <;>
    simp [ResourceInitializerWithoutDependencies.GetActualError,
      ResourceInitializerWithoutDependencies.IsValidResource, Result.HasResult,
      Result.GetError, h]

/-- Witness for C8: the first run of `countingInitializer` fails, the resource
is then not valid, and `GetActualError()` returns the cached error `-1`. -/
theorem ResourceInitializerWithoutDependencies.GetActualError_throws_iff_valid_witness :
    (exampleWithoutDependencies.InitializeResource 0).1.IsValidResource = false ∧
    (exampleWithoutDependencies.InitializeResource 0).1.GetActualError = .ok (-1) :=
  ⟨rfl, (ResourceInitializerWithoutDependencies.GetActualError_throws_iff_valid
      (exampleWithoutDependencies.InitializeResource 0).1).2 rfl⟩

/-- In both variants `GetUniqueResource()` throws
`ResourceInitializerInvalidResource` exactly when `IsValidResource()` is false,
and in the valid state it returns the object built from the cached payload `r`
as `TResource(new TResource(*r))`. -/
theorem GetUniqueResource_cases (ops : ResourceOps TResource Pointee) :
    (∀ (s : ResourceInitializerWithoutDependencies TResource TError World),
      s.GetUniqueResource ops
        = if s.IsValidResource then
            .ok (ops.fromPointer (ops.construct (ops.deref s.resourceInitResult.result)))
          else .error Failure.ResourceInitializerInvalidResource) ∧
    (∀ (s : ResourceInitializer TResource TError TDependencies World),
      s.GetUniqueResource ops
        = if s.IsValidResource then
            .ok (ops.fromPointer (ops.construct (ops.deref s.resourceInitResult.result)))
          else .error Failure.ResourceInitializerInvalidResource) := by
  constructor
  · intro s
    cases h : s.resourceInitResult.errorInitialized <;>
      simp [ResourceInitializerWithoutDependencies.GetUniqueResource,
        ResourceInitializerWithoutDependencies.IsValidResource, Result.HasResult,
        Result.GetResult, h]
  · intro s
    cases h : s.resourceInitResult.errorInitialized <;>
      simp [ResourceInitializer.GetUniqueResource, ResourceInitializer.IsValidResource,
        Result.HasResult, Result.GetResult, h]

/-- C9 (evaluation of the code): with `TResource = std::optional<bool>` and a
cached success payload containing `false`, `IsValidResource()` is true and, in
both variants, `GetUniqueResource()` returns an object containing `true`, which
is not the cached payload. -/
theorem GetUniqueResource_optional_differs_from_payload :
    (optionalWithoutDependencies.IsValidResource = true ∧
      optionalWithoutDependencies.GetActualResrouce = .ok (some false) ∧
      optionalWithoutDependencies.GetUniqueResource optionalBoolOps = .ok (some true) ∧
      optionalWithoutDependencies.GetUniqueResource optionalBoolOps ≠ .ok (some false)) ∧
    (optionalWithDependencies.IsValidResource = true ∧
      optionalWithDependencies.GetActualResrouce = .ok (some false) ∧
      optionalWithDependencies.GetUniqueResource optionalBoolOps = .ok (some true) ∧
      optionalWithDependencies.GetUniqueResource optionalBoolOps ≠ .ok (some false)) := by
  have h1 : optionalWithoutDependencies.GetUniqueResource optionalBoolOps
      = .ok (some true) := rfl
  have h2 : optionalWithDependencies.GetUniqueResource optionalBoolOps
      = .ok (some true) := rfl
  refine ⟨⟨rfl, rfl, h1, ?_⟩, ⟨rfl, rfl, h2, ?_⟩⟩
  · rw [h1]; simp
  · rw [h2]; simp

/-- C10 (evaluation of the code): on the dependency-variant initializer caching
the success payload `3`, `IsValidResource()` is true and a call of
`GetSharedResource()` has no outcome, so it returns no copy of `3`; the guard
written in the unconstrained overload raises
`ResourceInitializerInvalidResource` in this valid state and nothing in the
invalid state, the reverse of the guard of the constrained overload. -/
theorem ResourceInitializer.GetSharedResource_guard_inverted :
    (validInitializer.IsValidResource = true ∧
      validInitializer.GetActualResrouce = .ok 3 ∧
      validInitializer.GetSharedResource = none ∧
      validInitializer.GetSharedResource ≠ some (.ok 3) ∧
      validInitializer.GetSharedResourceGuard
        = some Failure.ResourceInitializerInvalidResource ∧
      validInitializer.GetSharedResourcePointerGuard = none) ∧
    (invalidInitializer.IsValidResource = false ∧
      invalidInitializer.GetSharedResource = none ∧
      invalidInitializer.GetSharedResourceGuard = none ∧
      invalidInitializer.GetSharedResourcePointerGuard
        = some Failure.ResourceInitializerInvalidResource) := by
  refine ⟨⟨rfl, rfl, rfl, ?_, rfl, rfl⟩, ⟨rfl, rfl, rfl, rfl⟩⟩
  simp [ResourceInitializer.GetSharedResource]

end Initializers

/-! ## Shared-resource accessor, dependencies, templated move, test operation -/

section SecondPart

variable {ResultType ErrorType TResource TError TDependencies World Pointee : Type}

/-- C11 (evaluation of the code): on the dependency-less initializer that
caches the success payload `7` after the second run of `countingInitializer`,
`IsValidResource()` is true and a call of `GetSharedResource()` has no outcome,
so it returns no copy of `7`; the guard written in the body is the one the
claim describes, raising `ResourceInitializerInvalidResource` in the invalid
state only. -/
theorem ResourceInitializerWithoutDependencies.GetSharedResource_has_no_outcome :
    ((exampleWithoutDependencies.InitializeResource 1).1.IsValidResource = true ∧
      (exampleWithoutDependencies.InitializeResource 1).1.GetActualResrouce = .ok 7 ∧
      (exampleWithoutDependencies.InitializeResource 1).1.GetSharedResource = none ∧
      (exampleWithoutDependencies.InitializeResource 1).1.GetSharedResource ≠ some (.ok 7) ∧
      (exampleWithoutDependencies.InitializeResource 1).1.GetSharedResourceGuard = none) ∧
    (invalidWithoutDependencies.IsValidResource = false ∧
      invalidWithoutDependencies.GetSharedResource = none ∧
      invalidWithoutDependencies.GetSharedResource
        ≠ some (.error Failure.ResourceInitializerInvalidResource) ∧
      invalidWithoutDependencies.GetSharedResourceGuard
        = some Failure.ResourceInitializerInvalidResource) := by
  refine ⟨⟨rfl, rfl, rfl, ?_, rfl⟩, ⟨rfl, rfl, ?_, rfl⟩⟩ <;>
    simp [ResourceInitializerWithoutDependencies.GetSharedResource]

/-- C12: for every bundle `d` and every prior state, after
`SetResourceDependencies(d)` the call `GetResourceDependencies()` returns `d`,
and the next `InitializeResource()` runs the callable on `d`: the cached
`Result` and the world afterwards are those of the callable applied to `d`. -/
theorem ResourceInitializer.SetResourceDependencies_then_InitializeResource
    (s : ResourceInitializer TResource TError TDependencies World) (d : TDependencies)
    (w : World) :
    (s.SetResourceDependencies d).GetResourceDependencies = d ∧
    ((s.SetResourceDependencies d).InitializeResource w).1.resourceInitResult
      = (s.initializer w d).1 ∧
    ((s.SetResourceDependencies d).InitializeResource w).2 = (s.initializer w d).2 ∧
    ((s.SetResourceDependencies d).InitializeResource w).1.GetResourceDependencies = d := by
  refine ⟨rfl, rfl, rfl, rfl⟩

/-- C13 (evaluation of the code): the templated move assignment from the
success-state source `Result<int, int>(7)` into a destination
`Result<long, int>` has no outcome, so the destination does not come to hold
`7` and the source is not reset; at the source type `int` of a destination
`Result<int, int>(5)` the body runs, the destination holds `7` and the source
`0`. -/
theorem Utilities.Result.templatedMove_cross_type_has_no_outcome :
    (Result.ofValue 7 : Result Int Int).HasResult = true ∧
    (Result.ofValue 7 : Result Int Int).GetResult = .ok 7 ∧
    Result.templatedMoveAssignAt ArithmeticType.long ArithmeticType.int
      (Result.default : Result Int Int) (Result.ofValue 7) = none ∧
    Result.templatedMoveAssignAt ArithmeticType.long ArithmeticType.short
      (Result.ofValue 5 : Result Int Int) (Result.ofValue 7) = none ∧
    (Result.templatedMoveAssignAt ArithmeticType.int ArithmeticType.int
      (Result.ofValue 5 : Result Int Int) (Result.ofValue 7)).map
        (fun after => (after.1.GetResult, after.2.GetResult))
      = some (.ok 7, .ok 0) := by
  refine ⟨rfl, rfl, rfl, rfl, rfl⟩

/-- C14 (evaluation of the code): the templated move does not carry the
discriminant over. From the error-state source built with `MakeError(-1)` the
constructed destination, and the destination `Result<int, int>(5)` after the
assignment, have `HasResult() == true` and `GetError()` throws
`BadResultAccess`; and the error-state destination assigned from the
success-state source `Result<int, int>(7)` keeps `HasResult() == false`. -/
theorem Utilities.Result.templatedMove_keeps_destination_discriminant :
    (Result.ofError (MakeError (-1)) : Result Int Int).HasResult = false ∧
    ((Result.templatedMoveConstruct (Result.ofError (MakeError (-1)) : Result Int Int)).1.HasResult
        = true ∧
      (Result.templatedMoveConstruct (Result.ofError (MakeError (-1)) : Result Int Int)).1.GetError
        = .error Failure.BadResultAccess) ∧
    ((Result.templatedMoveAssign (Result.ofValue 5)
        (Result.ofError (MakeError (-1)) : Result Int Int)).1.HasResult = true ∧
      (Result.templatedMoveAssign (Result.ofValue 5)
        (Result.ofError (MakeError (-1)) : Result Int Int)).1.GetError
        = .error Failure.BadResultAccess ∧
      (Result.templatedMoveAssign (Result.ofValue 5)
        (Result.ofError (MakeError (-1)) : Result Int Int)).1.GetResult = .ok 5) ∧
    ((Result.ofValue 7 : Result Int Int).HasResult = true ∧
      (Result.templatedMoveAssign (Result.ofError (MakeError (-1)))
        (Result.ofValue 7 : Result Int Int)).1.HasResult = false ∧
      (Result.templatedMoveAssign (Result.ofError (MakeError (-1)))
        (Result.ofValue 7 : Result Int Int)).1.GetResult = .error Failure.BadResultAccess) := by
  refine ⟨rfl, ⟨rfl, rfl⟩, ⟨rfl, rfl, rfl⟩, ⟨rfl, rfl, rfl⟩⟩

/-- C15: for every input string `s`, the `Result` returned by `DoOperation(s)`
and moved into the fixture field is in success state holding `"success"` when
`s` is `"valid"`, and otherwise in error state, with `HasResult() == false` and
`GetError() == -1`. -/
theorem Testing.DoOperation_moved_into_field (s : String) :
    (s = "valid" →
      (Testing.SetUpField s).HasResult = true ∧
      (Testing.SetUpField s).GetResult = .ok "success") ∧
    (s ≠ "valid" →
      (Testing.SetUpField s).HasResult = false ∧
      (Testing.SetUpField s).GetError = .ok (-1)) := by
  constructor
  · intro h
    subst h
    exact ⟨rfl, rfl⟩
  · intro h
    have hd : Testing.DoOperation s = Result.ofError (MakeError (-1)) := by
      simp [Testing.DoOperation, h]
    simp only [Testing.SetUpField, hd]
    exact ⟨rfl, rfl⟩

/-- Witness for C15: the inputs `"valid"` and `"invalid"`. -/
theorem Testing.DoOperation_moved_into_field_witness :
    ("valid" = "valid" ∧
      (Testing.SetUpField "valid").HasResult = true ∧
      (Testing.SetUpField "valid").GetResult = .ok "success") ∧
    ("invalid" ≠ "valid" ∧
      (Testing.SetUpField "invalid").HasResult = false ∧
      (Testing.SetUpField "invalid").GetError = .ok (-1)) :=
  ⟨⟨rfl, (Testing.DoOperation_moved_into_field "valid").1 rfl⟩,
   ⟨by decide, (Testing.DoOperation_moved_into_field "invalid").2 (by decide)⟩⟩

/-- C16: a default-constructed `Result` has `HasResult() == true`; an
initializer of either variant that has only been constructed has
`IsValidResource() == true`, and its `GetActualResrouce()` does not throw
`ResourceInitializerInvalidResource`: it returns the default-initialised
payload. -/
theorem default_constructed_reports_valid [Inhabited TResource] [Inhabited TError] :
    (Result.default : Result TResource TError).HasResult = true ∧
    (∀ (f : World → Result TResource TError × World),
      (ResourceInitializerWithoutDependencies.construct f).IsValidResource = true ∧
      (ResourceInitializerWithoutDependencies.construct f).GetActualResrouce
        ≠ .error Failure.ResourceInitializerInvalidResource ∧
      (ResourceInitializerWithoutDependencies.construct f).GetActualResrouce
        = .ok Inhabited.default) ∧
    (∀ (f : World → TDependencies → Result TResource TError × World) (d : TDependencies),
      (ResourceInitializer.construct f d).IsValidResource = true ∧
      (ResourceInitializer.construct f d).GetActualResrouce
        ≠ .error Failure.ResourceInitializerInvalidResource ∧
      (ResourceInitializer.construct f d).GetActualResrouce = .ok Inhabited.default) := by
  refine ⟨rfl, fun f => ⟨rfl, ?_, rfl⟩, fun f d => ⟨rfl, ?_, rfl⟩⟩
  · have h : (ResourceInitializerWithoutDependencies.construct f).GetActualResrouce
        = .ok Inhabited.default := rfl
    rw [h]; simp
  · have h : (ResourceInitializer.construct f d).GetActualResrouce
        = .ok Inhabited.default := rfl
    rw [h]; simp

/-- C17: for every `Result`, hence for every one built by default, success or
error construction and by the same-type or templated moves, `GetResult()`
succeeds if and only if `HasResult()` is true, `GetError()` succeeds if and only
if `HasResult()` is false, and exactly one of the two succeeds. -/
theorem Utilities.Result.exactly_one_accessor_succeeds (r : Result ResultType ErrorType) :
    ((∃ v, r.GetResult = .ok v) ↔ r.HasResult = true) ∧
    ((∃ e, r.GetError = .ok e) ↔ r.HasResult = false) ∧
    ((∃ v, r.GetResult = .ok v) ∨ (∃ e, r.GetError = .ok e)) ∧
    ¬ ((∃ v, r.GetResult = .ok v) ∧ (∃ e, r.GetError = .ok e)) := by
  cases h : r.errorInitialized <;>
    simp [Result.HasResult, Result.GetResult, Result.GetError, h]

/-- C20 (the claim fails): the fixture field move-assigned from
`DoOperation("invalid")` does not have `HasResult() == true`. -/
theorem Testing.invalidResult_HasResult_not_true :
    ¬ ((Testing.SetUpField "invalid").HasResult = true) := by
  have h : (Testing.SetUpField "invalid").HasResult = false := rfl
  rw [h]; simp

/-- C20 (as amended): `DoOperation("invalid")` is the error `Result` built with
`MakeError(-1)`, and the default-constructed fixture field move-assigned from
it has `HasResult() == false`. -/
theorem Testing.invalidResult_HasResult_false :
    Testing.DoOperation "invalid" = Result.ofError (MakeError (-1)) ∧
    (Testing.SetUpField "invalid").HasResult = false ∧
    (Result.default : Result String Int).HasResult = true :=
  ⟨rfl, rfl, rfl⟩

end SecondPart

/-! ## The socket façade -/

section Facade

variable {World : Type}

/-- C18: on a façade that is not Open and whose initializer wraps the
socket-creation call of the platform, an `OpenSocket(dependencies)` whose
initializer invocation succeeds returns true and leaves the façade Open;
`GetSocket()` then returns a handle `h` that is non-negative, the descriptor
the native call returned; the following `CloseSocket()` returns true, leaves
the façade Closed and adds exactly `h` to the released handles; a further
`CloseSocket()` returns true and releases nothing. -/
theorem BasicSocket.open_then_close_releases_once
    (nativeCall : World → SocketResourceDependencies → NativeOutcome × World)
    (s : BasicSocket World) (deps : SocketResourceDependencies) (w : World)
    (released : List Int)
    (hstate : s.state ≠ SocketState.Open)
    (hcallable : s.initializer.initializer = platformInitializer nativeCall)
    (hsuccess : (s.initializer.initializer w deps).1.HasResult = true) :
    ∃ (s1 : BasicSocket World) (w1 : World) (h : Int),
      s.OpenSocket deps w = some (true, s1, w1) ∧
      s1.state = SocketState.Open ∧
      s1.GetSocket = .ok h ∧ 0 ≤ h ∧
      h = (nativeCall w deps).1.returned ∧
      (s1.CloseSocket released).1 = true ∧
      (s1.CloseSocket released).2.1.state = SocketState.Closed ∧
      (s1.CloseSocket released).2.2 = released ++ [h] ∧
      ((s1.CloseSocket released).2.1.CloseSocket (s1.CloseSocket released).2.2).1 = true ∧
      ((s1.CloseSocket released).2.1.CloseSocket (s1.CloseSocket released).2.2).2.1.state
        = SocketState.Closed ∧
      ((s1.CloseSocket released).2.1.CloseSocket (s1.CloseSocket released).2.2).2.2
        = released ++ [h] := by
  have hneg : ¬ (nativeCall w deps).1.returned < 0 := by
    intro hlt
    rw [hcallable] at hsuccess
    simp [platformInitializer, hlt, Result.HasResult, Result.ofError] at hsuccess
  have hres : (s.initializer.initializer w deps).1
      = Result.ofValue (nativeCall w deps).1.returned := by
    rw [hcallable]
    simp [platformInitializer, hneg]
  have he : (s.initializer.initializer w deps).1.errorInitialized = false := by
    simpa [Result.HasResult] using hsuccess
  have hpayload : (s.initializer.initializer w deps).1.result
      = (nativeCall w deps).1.returned := by
    rw [hres]; rfl
  have hrun : ((s.initializer.SetResourceDependencies deps).InitializeResource w).1.resourceInitResult
      = (s.initializer.initializer w deps).1 := rfl
  have hvalid : ((s.initializer.SetResourceDependencies deps).InitializeResource w).1.IsValidResource
      = true := by
    simp [ResourceInitializer.IsValidResource, hrun, hsuccess]
  have hopen : s.OpenSocket deps w
      = some (true,
          { initializer := ((s.initializer.SetResourceDependencies deps).InitializeResource w).1,
            state := SocketState.Open },
          ((s.initializer.SetResourceDependencies deps).InitializeResource w).2) := by
    cases hs : s.state with
    | Open => exact absurd hs hstate
    | Unopened => simp [BasicSocket.OpenSocket, hs, hvalid]
    | Closed => simp [BasicSocket.OpenSocket, hs, hvalid]
  refine ⟨_, _, (s.initializer.initializer w deps).1.result, hopen, rfl, ?_, ?_, hpayload, ?_⟩
  · simp [BasicSocket.GetSocket, ResourceInitializer.GetActualResrouce,
      ResourceInitializer.IsValidResource, Result.HasResult, Result.GetResult, hrun, he]
  · rw [hpayload]; omega
  · simp [BasicSocket.CloseSocket, BasicSocket.GetSocket, ResourceInitializer.GetActualResrouce,
      ResourceInitializer.IsValidResource, Result.HasResult, Result.GetResult, hrun, he]

/-- Witness for C18: the never-opened façade over the platform-bound
initializer of `exampleNativeCall`, opened with the bundle
`{domain = 2, type = 1, protocol = 0}` in the world `0` with nothing released
yet. -/
theorem BasicSocket.open_then_close_releases_once_witness :
    examplePlatformSocket.state ≠ SocketState.Open ∧
    examplePlatformSocket.initializer.initializer = platformInitializer exampleNativeCall ∧
    (examplePlatformSocket.initializer.initializer 0
      { domain := 2, type := 1, protocol := 0 }).1.HasResult = true ∧
    ∃ (s1 : BasicSocket Nat) (w1 : Nat) (h : Int),
      examplePlatformSocket.OpenSocket { domain := 2, type := 1, protocol := 0 } 0
        = some (true, s1, w1) ∧
      s1.state = SocketState.Open ∧
      s1.GetSocket = .ok h ∧ 0 ≤ h ∧
      h = (exampleNativeCall 0 { domain := 2, type := 1, protocol := 0 }).1.returned ∧
      (s1.CloseSocket []).1 = true ∧
      (s1.CloseSocket []).2.1.state = SocketState.Closed ∧
      (s1.CloseSocket []).2.2 = [] ++ [h] ∧
      ((s1.CloseSocket []).2.1.CloseSocket (s1.CloseSocket []).2.2).1 = true ∧
      ((s1.CloseSocket []).2.1.CloseSocket (s1.CloseSocket []).2.2).2.1.state
        = SocketState.Closed ∧
      ((s1.CloseSocket []).2.1.CloseSocket (s1.CloseSocket []).2.2).2.2 = [] ++ [h] :=
  ⟨by decide, rfl, rfl,
   BasicSocket.open_then_close_releases_once exampleNativeCall examplePlatformSocket
     { domain := 2, type := 1, protocol := 0 } 0 [] (by decide) rfl rfl⟩

end Facade

/-! ## Shared-resource guard, the bundle cell, the converting move of `Error` -/

section ThirdPart

variable {TResource TError TDependencies World Pointee : Type}

/-- C22: with the bundle held in a caller-owned cell, `SetResourceDependencies(d)`
writes `d` into the cell the initializer refers to, so the bundle of the caller
equals `d` afterwards; the initializer refers to the same cell as before and no
other cell changes. Read through the reference, this is the
`SetResourceDependencies` of `ResourceInitializer`. -/
theorem ResourceInitializerRef.SetResourceDependencies_overwrites_cell
    (o : ResourceInitializerRef TResource TError TDependencies World)
    (store : Nat → TDependencies) (d : TDependencies) :
    (o.SetResourceDependencies store d).2 o.dependencies = d ∧
    (o.SetResourceDependencies store d).1.dependencies = o.dependencies ∧
    (o.SetResourceDependencies store d).2 = Function.update store o.dependencies d ∧
    (o.SetResourceDependencies store d).1.GetResourceDependencies
      (o.SetResourceDependencies store d).2 = d ∧
    (o.SetResourceDependencies store d).1.view (o.SetResourceDependencies store d).2
      = (o.view store).SetResourceDependencies d := by
  have h : Function.update store o.dependencies d o.dependencies = d :=
    Function.update_same _ _ _
  refine ⟨h, rfl, rfl, h, ?_⟩
  simp only [ResourceInitializerRef.SetResourceDependencies, ResourceInitializerRef.view,
    ResourceInitializer.SetResourceDependencies, h]

/-- C23 (evaluation of the code): the `Result<std::string, std::optional<int>>`
built from the `Error<int>` that `MakeError(-1)` returns is in error state and
`GetError()` returns the empty optional, not `-1` converted; for every `u` the
converting move of `Error<int>` holding `u` yields the default-initialised
value. -/
theorem Utilities.Result.ofConvertedError_loses_value :
    (Result.ofConvertedError (MakeError (-1 : Int)) : Result String (Option Int)).HasResult
      = false ∧
    (Result.ofConvertedError (MakeError (-1 : Int)) : Result String (Option Int)).GetError
      = .ok none ∧
    (Result.ofConvertedError (MakeError (-1 : Int)) : Result String (Option Int)).GetError
      ≠ .ok (some (-1)) ∧
    (∀ u : Int, (Error.convertingMove (MakeError u) : Error (Option Int)).value = none) := by
  have h : (Result.ofConvertedError (MakeError (-1 : Int)) : Result String (Option Int)).GetError
      = .ok none := rfl
  refine ⟨rfl, h, ?_, fun _ => rfl⟩
  rw [h]; simp

/-- C24: `SetResourceDependencies(d)` leaves the callable and the cached
`Result` as they are: `IsValidResource()` and the outcome of
`GetActualResrouce()` are the same before and after the call, for every state
and every `d`; the bundle is the only member that changes, and it is what the
next `InitializeResource()` passes to the callable. -/
theorem ResourceInitializer.SetResourceDependencies_keeps_cached_result
    (s : ResourceInitializer TResource TError TDependencies World) (d : TDependencies)
    (w : World) :
    (s.SetResourceDependencies d).resourceInitResult = s.resourceInitResult ∧
    (s.SetResourceDependencies d).initializer = s.initializer ∧
    (s.SetResourceDependencies d).IsValidResource = s.IsValidResource ∧
    (s.SetResourceDependencies d).GetActualResrouce = s.GetActualResrouce ∧
    (s.SetResourceDependencies d).dependencies = d ∧
    ((s.SetResourceDependencies d).InitializeResource w).1.resourceInitResult
      = (s.initializer w d).1 :=
  ⟨rfl, rfl, rfl, rfl, rfl, rfl⟩

end ThirdPart

end Eagle.Core
